import Mathlib

/-!
Verification of the caching/freshness core of the BorsaPy API service.

The definitions below are a shallow embedding of the Python source:
* `main.py`: the two module-level dict caches (`FUND_CACHE`, `STOCK_CACHE`),
  the get-or-fetch coordinators `get_cached_fund_data` / `get_cached_stock_data`,
  and the cache-key construction of the route handlers;
* `borsapy/_providers/bist_index.py`: `BistIndexProvider`;
* `borsapy/_providers/tcmb_rates.py`: `TCMBRatesProvider`;
* `borsapy/_providers/canlidoviz.py`: `CanlidovizProvider.get_history`.

Python dicts are modelled as association lists with dict update semantics;
`datetime` values are modelled by their epoch second count (an `Int`), together
with the weekday (0 = Monday, as in Python `datetime.weekday()`) and the hour
where the code inspects them.  A Python callable `fetch_func` passed to a
get-or-fetch coordinator is modelled by the outcome of its single possible
invocation, an `Except E V` (`Except.error` = the call raises); each embedded
operation additionally returns the number of times it invoked the fetch, so
that "the fetch function is not invoked" is expressible.
-/

namespace BorsaApi

/-- A cache entry, `{'data': ..., 'timestamp': now}` in `main.py`. -/
structure Entry (V : Type) where
  data : V
  timestamp : Int
  deriving DecidableEq, Repr

/-- A Python dict used as a cache (`FUND_CACHE`, `STOCK_CACHE`), modelled as an
association list whose keys are unique. -/
abbrev Store (V : Type) := List (String × Entry V)

/-- Dict lookup: `CACHE[key]` / `key in CACHE`. -/
def Store.find {V : Type} : Store V → String → Option (Entry V)
  | [], _ => none
  | (k, e) :: rest, key => if k = key then some e else Store.find rest key

/-- Drops every binding for `key` (at most one, given unique keys). -/
def Store.removeKey {V : Type} : Store V → String → Store V
  | [], _ => []
  | (k, e) :: rest, key =>
      if k = key then Store.removeKey rest key else (k, e) :: Store.removeKey rest key

/-- Dict assignment `CACHE[key] = entry`: replaces any existing binding. -/
def Store.put {V : Type} (s : Store V) (key : String) (e : Entry V) : Store V :=
  (key, e) :: s.removeKey key

/-- `len(CACHE)`: number of entries. -/
def Store.size {V : Type} (s : Store V) : Nat := s.length

/-- Result of one call to a get-or-fetch coordinator: the value returned (or
the exception propagated), the cache dict after the call, and how many times
`fetch_func()` was invoked during the call. -/
structure CacheCall (E V : Type) where
  result : Except E V
  cache : Store V
  fetchCalls : Nat

/-- The wall-clock instant `get_turkey_time()` returns, as far as the code
inspects it: `weekday()` (0 = Monday … 6 = Sunday), `hour`, and the absolute
epoch second count used for age subtraction. -/
structure TrTime where
  weekday : Nat
  hour : Nat
  seconds : Int
  deriving DecidableEq, Repr

/-- The TTL selected inside `get_cached_fund_data` (`main.py` lines 94-109):
weekday and `10 <= hour <= 14` give the hot 900 s TTL, anything else the cold
14400 s TTL. -/
def fund_ttl_seconds (now : TrTime) : Int :=
  if now.weekday < 5 ∧ 10 ≤ now.hour ∧ now.hour ≤ 14 then 900 else 14400

/-- The refetch tail shared by both branches of `get_cached_stock_data`
(`main.py` lines 139-143): invoke `fetch_func()`; on success store the result
under `symbol` with timestamp `now` and return it; a raised exception
propagates and the assignment never runs. -/
def refetch {E V : Type} (key : String) (fetch_func : Except E V) (now : Int)
    (cache : Store V) : CacheCall E V :=
  match fetch_func with
  | Except.ok data => ⟨Except.ok data, cache.put key ⟨data, now⟩, 1⟩
  | Except.error e => ⟨Except.error e, cache, 1⟩

/-- `get_cached_stock_data` (`main.py` lines 126-143): simple TTL cache over
`STOCK_CACHE`.  `now` is the epoch second count of `get_turkey_time()`. -/
def get_cached_stock_data {E V : Type} (symbol : String) (fetch_func : Except E V)
    (ttl_seconds : Int) (now : Int) (stock_cache : Store V) : CacheCall E V :=
  match stock_cache.find symbol with
  | some entry =>
      if now - entry.timestamp < ttl_seconds then
        ⟨Except.ok entry.data, stock_cache, 0⟩
      else
        refetch symbol fetch_func now stock_cache
  | none => refetch symbol fetch_func now stock_cache

/-- `get_cached_fund_data` (`main.py` lines 87-124): dynamic-TTL cache over
`FUND_CACHE`, with the TTL computed from the current Turkey time. -/
def get_cached_fund_data {E V : Type} (code : String) (fetch_func : Except E V)
    (now : TrTime) (fund_cache : Store V) : CacheCall E V :=
  let ttl_seconds := fund_ttl_seconds now
  match fund_cache.find code with
  | some entry =>
      if now.seconds - entry.timestamp < ttl_seconds then
        ⟨Except.ok entry.data, fund_cache, 0⟩
      else
        refetch code fetch_func now.seconds fund_cache
  | none => refetch code fetch_func now.seconds fund_cache

/-- The module-level mutable cache state of `main.py`: the two global dicts. -/
structure Caches (V : Type) where
  fund : Store V
  stock : Store V
  deriving DecidableEq, Repr

/-- A call to `get_cached_stock_data` acting on the global state: the function
body reads and assigns only `STOCK_CACHE`. -/
def global_get_cached_stock_data {E V : Type} (symbol : String)
    (fetch_func : Except E V) (ttl_seconds : Int) (now : Int) (c : Caches V) :
    Except E V × Caches V × Nat :=
  let r := get_cached_stock_data symbol fetch_func ttl_seconds now c.stock
  (r.result, { c with stock := r.cache }, r.fetchCalls)

/-- A call to `get_cached_fund_data` acting on the global state: the function
body reads and assigns only `FUND_CACHE`. -/
def global_get_cached_fund_data {E V : Type} (code : String)
    (fetch_func : Except E V) (now : TrTime) (c : Caches V) :
    Except E V × Caches V × Nat :=
  let r := get_cached_fund_data code fetch_func now c.fund
  (r.result, { c with fund := r.cache }, r.fetchCalls)

/-! ### Store lemmas -/

theorem Store.find_put_self {V : Type} (s : Store V) (k : String) (e : Entry V) :
    (s.put k e).find k = some e := by
  simp [Store.put, Store.find]

theorem Store.find_removeKey_ne {V : Type} (s : Store V) (k k' : String) (h : k' ≠ k) :
    Store.find (s.removeKey k) k' = s.find k' := by
  induction s with
  | nil => rfl
  | cons hd tl ih =>
      rcases hd with ⟨k₀, e₀⟩
      by_cases hk : k₀ = k
      · have hk' : k₀ ≠ k' := fun hcontra => h (hcontra ▸ hk)
        simp [Store.removeKey, hk, Store.find, hk', ih, Ne.symm h]
      · by_cases hk' : k₀ = k'
        · simp [Store.removeKey, hk, Store.find, hk', h]
        · simp [Store.removeKey, hk, Store.find, hk', ih]

theorem Store.find_put_ne {V : Type} (s : Store V) (k k' : String) (e : Entry V)
    (h : k' ≠ k) : (s.put k e).find k' = s.find k' := by
  have step : Store.find ((k, e) :: s.removeKey k) k' =
      Store.find (s.removeKey k) k' := by
    simp [Store.find, Ne.symm h]
  calc (s.put k e).find k'
      = Store.find (s.removeKey k) k' := step
    _ = s.find k' := Store.find_removeKey_ne s k k' h

theorem Store.removeKey_eq_self_of_find_none {V : Type} (s : Store V) (k : String)
    (h : s.find k = none) : s.removeKey k = s := by
  induction s with
  | nil => rfl
  | cons hd tl ih =>
      rcases hd with ⟨k₀, e₀⟩
      by_cases hk : k₀ = k
      · simp [Store.find, hk] at h
      · simp [Store.find, hk] at h
        simp [Store.removeKey, hk, ih h]

theorem Store.size_put_fresh {V : Type} (s : Store V) (k : String) (e : Entry V)
    (h : s.find k = none) : (s.put k e).size = s.size + 1 := by
  simp [Store.put, Store.size, Store.removeKey_eq_self_of_find_none s k h]

/-- The key is absent from the store, or present but its age has reached the
TTL — exactly the condition under which the coordinators refetch. -/
def stale_or_absent {V : Type} (s : Store V) (key : String) (now ttl : Int) : Prop :=
  s.find key = none ∨ ∃ e, s.find key = some e ∧ ¬(now - e.timestamp < ttl)

theorem stock_eq_refetch_of_stale_or_absent {E V : Type} (key : String)
    (fetch_func : Except E V) (ttl now : Int) (s : Store V)
    (h : stale_or_absent s key now ttl) :
    get_cached_stock_data key fetch_func ttl now s = refetch key fetch_func now s := by
  rcases h with hnone | ⟨e, he, hstale⟩
  · simp [get_cached_stock_data, hnone]
  · simp [get_cached_stock_data, he, hstale]

theorem fund_eq_refetch_of_stale_or_absent {E V : Type} (key : String)
    (fetch_func : Except E V) (t : TrTime) (s : Store V)
    (h : stale_or_absent s key t.seconds (fund_ttl_seconds t)) :
    get_cached_fund_data key fetch_func t s = refetch key fetch_func t.seconds s := by
  rcases h with hnone | ⟨e, he, hstale⟩
  · simp [get_cached_fund_data, hnone]
  · simp [get_cached_fund_data, he, hstale]

theorem fund_ttl_pos (t : TrTime) : 0 < fund_ttl_seconds t := by
  unfold fund_ttl_seconds
  split <;> norm_num

theorem refetch_frame {E V : Type} (key k' : String) (fetch_func : Except E V)
    (now : Int) (s : Store V) (h : k' ≠ key) :
    Store.find (refetch key fetch_func now s).cache k' = s.find k' := by
  cases fetch_func with
  | ok v => simp [refetch, Store.find_put_ne s key k' _ h]
  | error e => simp [refetch]

theorem stock_cache_frame {E V : Type} (key k' : String) (fetch_func : Except E V)
    (ttl now : Int) (s : Store V) (h : k' ≠ key) :
    Store.find (get_cached_stock_data key fetch_func ttl now s).cache k' = s.find k' := by
  unfold get_cached_stock_data
  cases hfind : s.find key with
  | none => exact refetch_frame key k' fetch_func now s h
  | some entry =>
      by_cases hfr : now - entry.timestamp < ttl
      · simp [hfr]
      · simpa [hfr] using refetch_frame key k' fetch_func now s h

theorem fund_cache_frame {E V : Type} (key k' : String) (fetch_func : Except E V)
    (t : TrTime) (s : Store V) (h : k' ≠ key) :
    Store.find (get_cached_fund_data key fetch_func t s).cache k' = s.find k' := by
  unfold get_cached_fund_data
  cases hfind : s.find key with
  | none => exact refetch_frame key k' fetch_func t.seconds s h
  | some entry =>
      by_cases hfr : t.seconds - entry.timestamp < fund_ttl_seconds t
      · simp [hfr]
      · simpa [hfr] using refetch_frame key k' fetch_func t.seconds s h

/-! ### Claims C1, C2, C7, C9 -/

/-- Claim C1: for every call to `get_cached_stock_data` or `get_cached_fund_data`
with a key, a fetch function, and the applicable TTL — if the store holds an
entry for the key whose age (`now` minus its stored timestamp) is strictly
below the TTL, the cached value is returned, the fetch function is not invoked
and the store is not modified; otherwise (entry absent or stale) the fetch
function is invoked exactly once, its result is stored under the key with the
current timestamp, and that result is returned. -/
theorem claim_C1_get_or_fetch {E V : Type} (key : String) (fetch_func : Except E V)
    (ttl now : Int) (t : TrTime) (s sf : Store V) :
    (∀ e, s.find key = some e → now - e.timestamp < ttl →
      get_cached_stock_data key fetch_func ttl now s = ⟨Except.ok e.data, s, 0⟩) ∧
    (stale_or_absent s key now ttl →
      (get_cached_stock_data key fetch_func ttl now s).fetchCalls = 1 ∧
      ∀ v, fetch_func = Except.ok v →
        get_cached_stock_data key fetch_func ttl now s =
          ⟨Except.ok v, s.put key ⟨v, now⟩, 1⟩) ∧
    (∀ e, sf.find key = some e → t.seconds - e.timestamp < fund_ttl_seconds t →
      get_cached_fund_data key fetch_func t sf = ⟨Except.ok e.data, sf, 0⟩) ∧
    (stale_or_absent sf key t.seconds (fund_ttl_seconds t) →
      (get_cached_fund_data key fetch_func t sf).fetchCalls = 1 ∧
      ∀ v, fetch_func = Except.ok v →
        get_cached_fund_data key fetch_func t sf =
          ⟨Except.ok v, sf.put key ⟨v, t.seconds⟩, 1⟩) := by
  refine ⟨?_, ?_, ?_, ?_⟩
  · intro e he hf
    simp [get_cached_stock_data, he, hf]
  · intro hmiss
    rw [stock_eq_refetch_of_stale_or_absent key fetch_func ttl now s hmiss]
    constructor
    · cases fetch_func <;> simp [refetch]
    · intro v hv
      subst hv
      simp [refetch]
  · intro e he hf
    simp [get_cached_fund_data, he, hf]
  · intro hmiss
    rw [fund_eq_refetch_of_stale_or_absent key fetch_func t sf hmiss]
    constructor
    · cases fetch_func <;> simp [refetch]
    · intro v hv
      subst hv
      simp [refetch]

theorem claim_C1_witness :
    (Store.find ([("K", ⟨7, 100⟩)] : Store Nat) "K" = some ⟨7, 100⟩ ∧
      (100 : Int) ≤ 120 ∧ (120 : Int) - 100 < 60) ∧
    get_cached_stock_data "K" (Except.ok 9 : Except Unit Nat) 60 120
        [("K", ⟨7, 100⟩)] = ⟨Except.ok 7, [("K", ⟨7, 100⟩)], 0⟩ ∧
    stale_or_absent ([] : Store Nat) "A" 120 60 ∧
    get_cached_stock_data "A" (Except.ok 9 : Except Unit Nat) 60 120 [] =
      ⟨Except.ok 9, [("A", ⟨9, 120⟩)], 1⟩ ∧
    get_cached_fund_data "F" (Except.ok 3 : Except Unit Nat) ⟨2, 11, 1000⟩ [] =
      ⟨Except.ok 3, [("F", ⟨3, 1000⟩)], 1⟩ :=
  ⟨⟨rfl, by norm_num, by norm_num⟩,
   (claim_C1_get_or_fetch "K" (Except.ok 9) 60 120 ⟨2, 11, 1000⟩
      [("K", ⟨7, 100⟩)] []).1 ⟨7, 100⟩ rfl (by norm_num),
   Or.inl rfl,
   ((claim_C1_get_or_fetch "A" (Except.ok 9) 60 120 ⟨2, 11, 1000⟩ [] []).2.1
      (Or.inl rfl)).2 9 rfl,
   ((claim_C1_get_or_fetch "F" (Except.ok 3) 60 120 ⟨2, 11, 1000⟩ [] []).2.2.2
      (Or.inl rfl)).2 3 rfl⟩

/-- Claim C2: when the fetch function raises, `get_cached_stock_data` and
`get_cached_fund_data` propagate the exception and leave the cache dict
exactly as it was (no entry added, removed or replaced; a pre-existing stale
entry remains but is not returned as a fallback), and a subsequent call for
the same key with a succeeding fetch function performs a fresh fetch. -/
theorem claim_C2_failure_propagates {E V : Type} (key : String) (err : E) (v : V)
    (ttl now : Int) (t : TrTime) (s sf : Store V) :
    (stale_or_absent s key now ttl →
      get_cached_stock_data key (Except.error err : Except E V) ttl now s =
        ⟨Except.error err, s, 1⟩ ∧
      get_cached_stock_data key (Except.ok v : Except E V) ttl now
          (get_cached_stock_data key (Except.error err : Except E V) ttl now s).cache =
        ⟨Except.ok v, s.put key ⟨v, now⟩, 1⟩) ∧
    (stale_or_absent sf key t.seconds (fund_ttl_seconds t) →
      get_cached_fund_data key (Except.error err : Except E V) t sf =
        ⟨Except.error err, sf, 1⟩ ∧
      get_cached_fund_data key (Except.ok v : Except E V) t
          (get_cached_fund_data key (Except.error err : Except E V) t sf).cache =
        ⟨Except.ok v, sf.put key ⟨v, t.seconds⟩, 1⟩) := by
  constructor
  · intro hmiss
    have h1 : get_cached_stock_data key (Except.error err : Except E V) ttl now s =
        ⟨Except.error err, s, 1⟩ := by
      rw [stock_eq_refetch_of_stale_or_absent key _ ttl now s hmiss]
      simp [refetch]
    refine ⟨h1, ?_⟩
    rw [h1]
    rw [stock_eq_refetch_of_stale_or_absent key _ ttl now s hmiss]
    simp [refetch]
  · intro hmiss
    have h1 : get_cached_fund_data key (Except.error err : Except E V) t sf =
        ⟨Except.error err, sf, 1⟩ := by
      rw [fund_eq_refetch_of_stale_or_absent key _ t sf hmiss]
      simp [refetch]
    refine ⟨h1, ?_⟩
    rw [h1]
    rw [fund_eq_refetch_of_stale_or_absent key _ t sf hmiss]
    simp [refetch]

theorem claim_C2_witness :
    stale_or_absent ([("A", ⟨7, 0⟩)] : Store Nat) "A" 120 60 ∧
    get_cached_stock_data "A" (Except.error () : Except Unit Nat) 60 120
        [("A", ⟨7, 0⟩)] = ⟨Except.error (), [("A", ⟨7, 0⟩)], 1⟩ ∧
    get_cached_stock_data "A" (Except.ok 9 : Except Unit Nat) 60 120
        (get_cached_stock_data "A" (Except.error () : Except Unit Nat) 60 120
          [("A", ⟨7, 0⟩)]).cache =
      ⟨Except.ok 9, [("A", ⟨9, 120⟩)], 1⟩ := by
  have hmiss : stale_or_absent ([("A", ⟨7, 0⟩)] : Store Nat) "A" 120 60 :=
    Or.inr ⟨⟨7, 0⟩, rfl, by norm_num⟩
  have h := (claim_C2_failure_propagates "A" () 9 60 120 ⟨2, 11, 1000⟩
    [("A", ⟨7, 0⟩)] []).1 hmiss
  exact ⟨hmiss, h.1, h.2⟩

/-- Claim C7: from a state where the key is absent or stale, two get-or-fetch
calls in immediate succession (the second within the TTL window of the first,
TTL positive) with a fetch function returning the fixed value `v` both return
`v`, and the fetch function is invoked exactly once across the two calls. -/
theorem claim_C7_idempotence {E V : Type} (key : String) (v : V)
    (ttl now1 now2 : Int) (t : TrTime) (s sf : Store V) :
    (0 < ttl → stale_or_absent s key now1 ttl → now1 ≤ now2 → now2 - now1 < ttl →
      (get_cached_stock_data key (Except.ok v : Except E V) ttl now1 s).result =
        Except.ok v ∧
      (get_cached_stock_data key (Except.ok v : Except E V) ttl now2
        (get_cached_stock_data key (Except.ok v : Except E V) ttl now1 s).cache).result =
        Except.ok v ∧
      (get_cached_stock_data key (Except.ok v : Except E V) ttl now1 s).fetchCalls +
        (get_cached_stock_data key (Except.ok v : Except E V) ttl now2
          (get_cached_stock_data key (Except.ok v : Except E V) ttl now1 s).cache).fetchCalls
        = 1) ∧
    (stale_or_absent sf key t.seconds (fund_ttl_seconds t) →
      (get_cached_fund_data key (Except.ok v : Except E V) t sf).result = Except.ok v ∧
      (get_cached_fund_data key (Except.ok v : Except E V) t
        (get_cached_fund_data key (Except.ok v : Except E V) t sf).cache).result =
        Except.ok v ∧
      (get_cached_fund_data key (Except.ok v : Except E V) t sf).fetchCalls +
        (get_cached_fund_data key (Except.ok v : Except E V) t
          (get_cached_fund_data key (Except.ok v : Except E V) t sf).cache).fetchCalls
        = 1) := by
  constructor
  · intro _ hmiss _ hwin
    have h1 : get_cached_stock_data key (Except.ok v : Except E V) ttl now1 s =
        ⟨Except.ok v, s.put key ⟨v, now1⟩, 1⟩ := by
      rw [stock_eq_refetch_of_stale_or_absent key _ ttl now1 s hmiss]
      simp [refetch]
    rw [h1]
    have hfind : (s.put key ⟨v, now1⟩).find key = some ⟨v, now1⟩ :=
      Store.find_put_self s key ⟨v, now1⟩
    refine ⟨rfl, ?_, ?_⟩ <;>
      simp [get_cached_stock_data, hfind, hwin]
  · intro hmiss
    have h1 : get_cached_fund_data key (Except.ok v : Except E V) t sf =
        ⟨Except.ok v, sf.put key ⟨v, t.seconds⟩, 1⟩ := by
      rw [fund_eq_refetch_of_stale_or_absent key _ t sf hmiss]
      simp [refetch]
    rw [h1]
    have hfind : (sf.put key ⟨v, t.seconds⟩).find key = some ⟨v, t.seconds⟩ :=
      Store.find_put_self sf key ⟨v, t.seconds⟩
    have hage : (0 : Int) < fund_ttl_seconds t := fund_ttl_pos t
    refine ⟨rfl, ?_, ?_⟩ <;>
      simp [get_cached_fund_data, hfind, hage]

theorem claim_C7_witness :
    ((0 : Int) < 60 ∧ stale_or_absent ([] : Store Nat) "A" 100 60 ∧
      (100 : Int) ≤ 110 ∧ (110 : Int) - 100 < 60) ∧
    (get_cached_stock_data "A" (Except.ok 5 : Except Unit Nat) 60 100 []).result =
      Except.ok 5 ∧
    (get_cached_stock_data "A" (Except.ok 5 : Except Unit Nat) 60 110
      (get_cached_stock_data "A" (Except.ok 5 : Except Unit Nat) 60 100 []).cache).result =
      Except.ok 5 ∧
    (get_cached_stock_data "A" (Except.ok 5 : Except Unit Nat) 60 100 []).fetchCalls +
      (get_cached_stock_data "A" (Except.ok 5 : Except Unit Nat) 60 110
        (get_cached_stock_data "A" (Except.ok 5 : Except Unit Nat) 60 100 []).cache).fetchCalls
      = 1 := by
  have h := (claim_C7_idempotence (E := Unit) "A" 5 60 100 110 ⟨2, 11, 1000⟩ [] []).1
    (by norm_num) (Or.inl rfl) (by norm_num) (by norm_num)
  exact ⟨⟨by norm_num, Or.inl rfl, by norm_num, by norm_num⟩, h.1, h.2.1, h.2.2⟩

/-- Claim C9: each coordinator touches only its own module-level dict and only
its own key: a `get_cached_stock_data` call leaves `FUND_CACHE` entirely
unchanged and every `STOCK_CACHE` entry for a different key unchanged;
symmetrically for `get_cached_fund_data`. -/
theorem claim_C9_frame {E V : Type} (key k' : String) (fetch_func : Except E V)
    (ttl now : Int) (t : TrTime) (c : Caches V) (h : k' ≠ key) :
    (global_get_cached_stock_data key fetch_func ttl now c).2.1.fund = c.fund ∧
    Store.find (global_get_cached_stock_data key fetch_func ttl now c).2.1.stock k' =
      c.stock.find k' ∧
    (global_get_cached_fund_data key fetch_func t c).2.1.stock = c.stock ∧
    Store.find (global_get_cached_fund_data key fetch_func t c).2.1.fund k' =
      c.fund.find k' := by
  refine ⟨rfl, ?_, rfl, ?_⟩
  · exact stock_cache_frame key k' fetch_func ttl now c.stock h
  · exact fund_cache_frame key k' fetch_func t c.fund h

theorem claim_C9_witness :
    ("B" ≠ "A") ∧
    (global_get_cached_stock_data "A" (Except.ok 5 : Except Unit Nat) 60 100
      ⟨[("F", ⟨1, 0⟩)], [("B", ⟨2, 0⟩)]⟩).2.1.fund = [("F", ⟨1, 0⟩)] ∧
    Store.find (global_get_cached_stock_data "A" (Except.ok 5 : Except Unit Nat) 60 100
      ⟨[("F", ⟨1, 0⟩)], [("B", ⟨2, 0⟩)]⟩).2.1.stock "B" = some ⟨2, 0⟩ ∧
    (global_get_cached_fund_data "A" (Except.ok 5 : Except Unit Nat) ⟨2, 11, 100⟩
      ⟨[("F", ⟨1, 0⟩)], [("B", ⟨2, 0⟩)]⟩).2.1.stock = [("B", ⟨2, 0⟩)] ∧
    Store.find (global_get_cached_fund_data "A" (Except.ok 5 : Except Unit Nat) ⟨2, 11, 100⟩
      ⟨[("F", ⟨1, 0⟩)], [("B", ⟨2, 0⟩)]⟩).2.1.fund "F" = some ⟨1, 0⟩ := by
  have hne : ("B" : String) ≠ "A" := by decide
  have hne' : ("F" : String) ≠ "A" := by decide
  have h := claim_C9_frame "A" "B" (Except.ok 5 : Except Unit Nat) 60 100 ⟨2, 11, 100⟩
    ⟨[("F", ⟨1, 0⟩)], [("B", ⟨2, 0⟩)]⟩ hne
  have h' := claim_C9_frame "A" "F" (Except.ok 5 : Except Unit Nat) 60 100 ⟨2, 11, 100⟩
    ⟨[("F", ⟨1, 0⟩)], [("B", ⟨2, 0⟩)]⟩ hne'
  exact ⟨hne, h.1, by rw [h.2.1]; rfl, h.2.2.1, by rw [h'.2.2.2]; rfl⟩

/-! ### Claim C3: the fund freshness policy -/

/-- The hot window tested by `main.py` line 102: `10 <= current_hour <= 14`. -/
def in_hot_window (hour : Nat) : Prop := 10 ≤ hour ∧ hour ≤ 14

/-- Claim C3: the TTL selected inside `get_cached_fund_data` is a function of
the current weekday and hour only; weekday Monday-Friday with the hour in the
hot window gives 900 s and every other time gives 14400 s; in particular
Wednesday 11:00 gives 900 s, Saturday 11:00 gives 14400 s and Wednesday 16:00
gives 14400 s (Python weekday numbering, Monday = 0). -/
theorem claim_C3_fund_policy :
    (∀ t : TrTime, t.weekday < 5 → in_hot_window t.hour → fund_ttl_seconds t = 900) ∧
    (∀ t : TrTime, ¬(t.weekday < 5 ∧ in_hot_window t.hour) → fund_ttl_seconds t = 14400) ∧
    (∀ t t' : TrTime, t.weekday = t'.weekday → t.hour = t'.hour →
      fund_ttl_seconds t = fund_ttl_seconds t') ∧
    (∀ sec : Int, fund_ttl_seconds ⟨2, 11, sec⟩ = 900) ∧
    (∀ sec : Int, fund_ttl_seconds ⟨5, 11, sec⟩ = 14400) ∧
    (∀ sec : Int, fund_ttl_seconds ⟨2, 16, sec⟩ = 14400) := by
  refine ⟨?_, ?_, ?_, ?_, ?_, ?_⟩
  · intro t hw hh
    simp [fund_ttl_seconds, hw, hh.1, hh.2]
  · intro t h
    have h' : ¬(t.weekday < 5 ∧ 10 ≤ t.hour ∧ t.hour ≤ 14) := by
      intro hc
      exact h ⟨hc.1, hc.2.1, hc.2.2⟩
    simp [fund_ttl_seconds, h']
  · intro t t' hw hh
    simp [fund_ttl_seconds, hw, hh]
  · intro sec; rfl
  · intro sec; rfl
  · intro sec; rfl

theorem claim_C3_witness :
    ((2 : Nat) < 5 ∧ in_hot_window 11) ∧
    fund_ttl_seconds ⟨2, 11, 0⟩ = 900 ∧
    fund_ttl_seconds ⟨5, 11, 0⟩ = 14400 ∧
    fund_ttl_seconds ⟨2, 16, 0⟩ = 14400 :=
  ⟨⟨by norm_num, by constructor <;> norm_num⟩,
   claim_C3_fund_policy.1 ⟨2, 11, 0⟩ (by norm_num) ⟨by norm_num, by norm_num⟩,
   claim_C3_fund_policy.2.2.2.2.1 0,
   claim_C3_fund_policy.2.2.2.2.2 0⟩

/-! ### Claim C4: capacity

`FUND_CACHE` and `STOCK_CACHE` in `main.py` are plain dicts: nothing configures
a maximum size and no code path evicts or clears entries, so the stores grow by
one entry for every fresh key. -/

/-- Runs one `get_cached_stock_data` call per key (each with a succeeding
fetch) and returns the resulting `STOCK_CACHE`. -/
def pump (keys : List String) (now ttl : Int) (s : Store Nat) : Store Nat :=
  keys.foldl
    (fun st k => (get_cached_stock_data k (Except.ok 0 : Except Unit Nat) ttl now st).cache)
    s

theorem pump_size (now ttl : Int) :
    ∀ (keys : List String) (s : Store Nat), keys.Nodup →
      (∀ k ∈ keys, s.find k = none) →
      (pump keys now ttl s).size = s.size + keys.length := by
  intro keys
  induction keys with
  | nil => intro s _ _; simp [pump, Store.size]
  | cons k ks ih =>
      intro s hnd hfresh
      have hk : s.find k = none := hfresh k (List.mem_cons_self k ks)
      have hstep : (get_cached_stock_data k (Except.ok 0 : Except Unit Nat) ttl now s).cache =
          s.put k ⟨0, now⟩ := by
        simp [get_cached_stock_data, hk, refetch]
      have hfresh' : ∀ k' ∈ ks, (s.put k ⟨0, now⟩).find k' = none := by
        intro k' hk'
        have hne : k' ≠ k := by
          intro hcontra
          exact (List.nodup_cons.mp hnd).1 (hcontra ▸ hk')
        rw [Store.find_put_ne s k k' _ hne]
        exact hfresh k' (List.mem_cons_of_mem k hk')
      have hput : (s.put k ⟨0, now⟩).size = s.size + 1 :=
        Store.size_put_fresh s k _ hk
      calc (pump (k :: ks) now ttl s).size
          = (pump ks now ttl (s.put k ⟨0, now⟩)).size := by
            simp [pump, hstep]
        _ = (s.put k ⟨0, now⟩).size + ks.length :=
            ih _ (List.nodup_cons.mp hnd).2 hfresh'
        _ = s.size + (ks.length + 1) := by rw [hput]; omega

theorem pump_find_not_mem (now ttl : Int) :
    ∀ (keys : List String) (s : Store Nat) (k : String), k ∉ keys →
      Store.find (pump keys now ttl s) k = s.find k := by
  intro keys
  induction keys with
  | nil => intro s k _; rfl
  | cons k₁ ks ih =>
      intro s k hk
      have hne : k ≠ k₁ := fun hcontra => hk (hcontra ▸ List.mem_cons_self k₁ ks)
      have hk' : k ∉ ks := fun hcontra => hk (List.mem_cons_of_mem k₁ hcontra)
      calc Store.find (pump (k₁ :: ks) now ttl s) k
          = Store.find
              (pump ks now ttl
                (get_cached_stock_data k₁ (Except.ok 0 : Except Unit Nat) ttl now s).cache) k := by
            simp [pump]
        _ = Store.find
              (get_cached_stock_data k₁ (Except.ok 0 : Except Unit Nat) ttl now s).cache k :=
            ih _ k hk'
        _ = s.find k := stock_cache_frame k₁ k _ ttl now s hne

theorem stock_call_find_self_some {V : Type} (k : String) (v : V) (ttl now : Int)
    (s : Store V) :
    Store.find (get_cached_stock_data k (Except.ok v : Except Unit V) ttl now s).cache k ≠
      none := by
  unfold get_cached_stock_data
  cases hfind : s.find k with
  | none => simp [refetch, Store.find_put_self]
  | some entry =>
      by_cases hfr : now - entry.timestamp < ttl
      · simp [hfr, hfind]
      · simp [hfr, refetch, Store.find_put_self]

theorem pump_queryable (now ttl : Int) :
    ∀ (keys : List String) (s : Store Nat), keys.Nodup →
      ∀ k ∈ keys, Store.find (pump keys now ttl s) k ≠ none := by
  intro keys
  induction keys with
  | nil => intro s _ k hk; cases hk
  | cons k₁ ks ih =>
      intro s hnd k hk
      rcases List.mem_cons.mp hk with hk | hk
      · subst hk
        have hout : k ∉ ks := (List.nodup_cons.mp hnd).1
        have : Store.find (pump (k :: ks) now ttl s) k =
            Store.find (get_cached_stock_data k (Except.ok 0 : Except Unit Nat) ttl now s).cache
              k := by
          calc Store.find (pump (k :: ks) now ttl s) k
              = Store.find
                  (pump ks now ttl
                    (get_cached_stock_data k (Except.ok 0 : Except Unit Nat) ttl now s).cache)
                  k := by simp [pump]
            _ = _ := pump_find_not_mem now ttl ks _ k hout
        rw [this]
        exact stock_call_find_self_some k 0 ttl now s
      · have : Store.find (pump (k₁ :: ks) now ttl s) k =
            Store.find
              (pump ks now ttl
                (get_cached_stock_data k₁ (Except.ok 0 : Except Unit Nat) ttl now s).cache) k := by
          simp [pump]
        rw [this]
        exact ih _ (List.nodup_cons.mp hnd).2 k hk

/-- `maxSize + 1` pairwise distinct keys for `maxSize = 500`: the strings
`""`, `"a"`, `"aa"`, ... of lengths `0 .. 500`. -/
def growKeys (n : Nat) : List String :=
  (List.range n).map fun i => String.mk (List.replicate i 'a')

theorem growKeys_nodup (n : Nat) : (growKeys n).Nodup := by
  apply List.Nodup.map _ (List.nodup_range n)
  intro a b h
  have hd : List.replicate a 'a' = List.replicate b 'a' := by
    have := congrArg String.data h
    simpa using this
  have := congrArg List.length hd
  simpa using this

theorem growKeys_length (n : Nat) : (growKeys n).length = n := by
  simp [growKeys]

/-- Counterexample to Claim C4: the stores of `main.py` have no capacity
bound.  Inserting 501 distinct keys (one more than the spec's example bound of
500) through get-or-fetch calls leaves `STOCK_CACHE` with 501 entries — the
size is not kept below any configured maximum, and no eviction or clear
occurs. -/
theorem claim_C4_counterexample :
    (growKeys 501).Nodup ∧ (growKeys 501).length = 501 ∧
    (pump (growKeys 501) 0 60 []).size = 501 ∧
    ¬((pump (growKeys 501) 0 60 []).size ≤ 500) := by
  have hsize : (pump (growKeys 501) 0 60 []).size = 501 := by
    have h := pump_size 0 60 (growKeys 501) [] (growKeys_nodup 501)
      (fun k _ => rfl)
    rw [growKeys_length] at h
    exact h
  exact ⟨growKeys_nodup 501, growKeys_length 501, hsize, by rw [hsize]; omega⟩

/-- Claim C4 as amended: the stores are unbounded.  A sequence of get-or-fetch
calls on pairwise distinct fresh keys grows the store by exactly the number of
keys — no maximum is enforced and nothing is evicted or cleared — and the
store remains queryable: each inserted key is found afterwards. -/
theorem claim_C4_amended_unbounded (keys : List String) (s : Store Nat)
    (now ttl : Int) (hnd : keys.Nodup) (hfresh : ∀ k ∈ keys, s.find k = none) :
    (pump keys now ttl s).size = s.size + keys.length ∧
    ∀ k ∈ keys, Store.find (pump keys now ttl s) k ≠ none :=
  ⟨pump_size now ttl keys s hnd hfresh, pump_queryable now ttl keys s hnd⟩

theorem claim_C4_witness :
    (["A", "B"].Nodup ∧ ∀ k ∈ ["A", "B"], Store.find ([] : Store Nat) k = none) ∧
    (pump ["A", "B"] 0 60 []).size = Store.size ([] : Store Nat) + 2 ∧
    ∀ k ∈ ["A", "B"], Store.find (pump ["A", "B"] 0 60 []) k ≠ none := by
  have hnd : (["A", "B"] : List String).Nodup := by decide
  have hfresh : ∀ k ∈ ["A", "B"], Store.find ([] : Store Nat) k = none :=
    fun k _ => rfl
  have h := claim_C4_amended_unbounded ["A", "B"] [] 0 60 hnd hfresh
  exact ⟨⟨hnd, hfresh⟩, h.1, h.2⟩

/-! ### Claim C5: cache-key construction -/

/-- One logical query against `STOCK_CACHE`, i.e. one route handler of
`main.py` that calls `get_cached_stock_data`, together with the parameters
that enter its cache key. -/
inductive StockQuery where
  | stockList
  | stockDetail (symbol : String)
  | stockHistory (symbol period interval : String)
  | stockFinancials (symbol ftype : String)
  | fx (symbol : String)
  | marketIndex (symbol : String)
  | bond (name : String)
  | analysis (symbol : String)
  | search (q : String)
  deriving DecidableEq, Repr

/-- The cache key each handler passes to `get_cached_stock_data` (the f-string
literals of `main.py` lines 202, 220, 233, 249, 323, 342, 359, 409, 419). -/
def StockQuery.cacheKey : StockQuery → String
  | .stockList => "ALL_STOCKS_LIST"
  | .stockDetail symbol => symbol ++ "_DETAIL"
  | .stockHistory symbol period interval =>
      symbol ++ "_HIST_" ++ period ++ "_" ++ interval
  | .stockFinancials symbol ftype => symbol ++ "_FIN_" ++ ftype
  | .fx symbol => "FX_" ++ symbol
  | .marketIndex symbol => "IDX_" ++ symbol
  | .bond name => "BOND_" ++ name
  | .analysis symbol => "ANALYSIS_" ++ symbol
  | .search q => "SEARCH_" ++ q

/-- One logical query against `FUND_CACHE` (`main.py` lines 278, 293). -/
inductive FundQuery where
  | fundDetail (code : String)
  | fundHistory (code : String)
  deriving DecidableEq, Repr

def FundQuery.cacheKey : FundQuery → String
  | .fundDetail code => code ++ "_DETAIL"
  | .fundHistory code => code ++ "_HIST"

theorem string_append_cancel_right (a b c : String) (h : a ++ c = b ++ c) :
    a = b := by
  obtain ⟨la⟩ := a
  obtain ⟨lb⟩ := b
  obtain ⟨lc⟩ := c
  have hd : la ++ lc = lb ++ lc := by
    have := congrArg String.data h
    simpa using this
  have : la = lb := List.append_cancel_right hd
  exact congrArg String.mk this

theorem string_append_cancel_left (a b c : String) (h : a ++ b = a ++ c) :
    b = c := by
  obtain ⟨la⟩ := a
  obtain ⟨lb⟩ := b
  obtain ⟨lc⟩ := c
  have hd : la ++ lb = la ++ lc := by
    have := congrArg String.data h
    simpa using this
  have : lb = lc := List.append_cancel_left hd
  exact congrArg String.mk this

/-- Counterexample to Claim C5: key construction is not injective across
logically distinct queries into `STOCK_CACHE`.  The stock-detail query for
symbol `BOND_X` and the bond query for name `X_DETAIL` are distinct queries
(different endpoints and parameters) yet both produce the cache key
`BOND_X_DETAIL`, so they share one cache entry. -/
theorem claim_C5_counterexample :
    StockQuery.stockDetail "BOND_X" ≠ StockQuery.bond "X_DETAIL" ∧
    (StockQuery.stockDetail "BOND_X").cacheKey =
      (StockQuery.bond "X_DETAIL").cacheKey := by
  constructor
  · intro h
    cases h
  · rfl

/-- Claim C5 as amended: key construction is deterministic — equal logical
queries always produce equal keys — and injective within a single endpoint
family (two stock-detail queries, or two bond queries, collide exactly when
their parameter is equal), but distinct queries from different endpoint
families can collide in `STOCK_CACHE`. -/
theorem claim_C5_amended_keys (s₁ s₂ n₁ n₂ : String) :
    (∀ q q' : StockQuery, q = q' → q.cacheKey = q'.cacheKey) ∧
    ((StockQuery.stockDetail s₁).cacheKey = (StockQuery.stockDetail s₂).cacheKey ↔
      s₁ = s₂) ∧
    ((StockQuery.bond n₁).cacheKey = (StockQuery.bond n₂).cacheKey ↔ n₁ = n₂) := by
  refine ⟨fun q q' h => h ▸ rfl, ⟨?_, fun h => h ▸ rfl⟩, ⟨?_, fun h => h ▸ rfl⟩⟩
  · intro h
    exact string_append_cancel_right s₁ s₂ "_DETAIL" h
  · intro h
    exact string_append_cancel_left "BOND_" n₁ n₂ h

theorem claim_C5_witness :
    ((StockQuery.stockDetail "THYAO").cacheKey =
        (StockQuery.stockDetail "THYAO").cacheKey ↔ ("THYAO" : String) = "THYAO") ∧
    ¬((StockQuery.bond "TRT1").cacheKey = (StockQuery.bond "TRT2").cacheKey) := by
  have h := claim_C5_amended_keys "THYAO" "THYAO" "TRT1" "TRT2"
  refine ⟨h.2.1, fun hc => ?_⟩
  have : ("TRT1" : String) = "TRT2" := h.2.2.mp hc
  exact absurd this (by decide)

/-! ### `BistIndexProvider` (`borsapy/_providers/bist_index.py`) -/

/-- One data row of the `hisse_endeks_ds.csv` download, restricted to the four
columns the code reads. -/
structure RawRow where
  bilesen_kodu : String
  bulten_adi : String
  endeks_kodu : String
  endeks_adi : String
  deriving DecidableEq, Repr

/-- One row of the cleaned components DataFrame: the derived columns
`symbol`, `name`, `index_code`, `index_name` added in `_download_components`. -/
structure ComponentRow where
  symbol : String
  name : String
  index_code : String
  index_name : String
  deriving DecidableEq, Repr

/-- `str.upper()` on the ASCII fragment (ticker and index symbols are ASCII). -/
def pyUpper (s : String) : String := ⟨s.data.map Char.toUpper⟩

/-- `str.replace(r"\.E$", "", regex=True)` applied to one cell: drop a
trailing `.E`. -/
def strip_e_suffix (s : String) : String :=
  match s.data.reverse with
  | 'E' :: '.' :: rest => ⟨rest.reverse⟩
  | _ => s

/-- The DataFrame cleanup in `_download_components`: `df.iloc[1:]` (skip the
English header row) and the four derived columns. -/
def parse_components (raw : List RawRow) : List ComponentRow :=
  (raw.drop 1).map fun r =>
    ⟨strip_e_suffix r.bilesen_kodu, r.bulten_adi, r.endeks_kodu, r.endeks_adi⟩

/-- The mutable state of one `BistIndexProvider` instance: `self._df_cache`,
and the `BaseProvider` memory-cache entry for the single key
`"bist:index:components:all"`.  The `BaseProvider` cache itself (`base.py`,
not under `src/`) is modelled from the spec: providers own a long-lived keyed
static-dataset cache read before a download and written after a successful
one; since this provider only ever uses one key, that cache is one optional
slot here. -/
structure BistIndexProvider where
  df_cache : Option (List ComponentRow)
  mem_cache : Option (List ComponentRow)
  deriving DecidableEq, Repr

/-- `_download_components`: serve `self._df_cache` if set, else the memory
cache, else attempt the HTTP download (`net`: `some raw` if `self._get` and
`pd.read_csv` succeed, `none` if they raise — the `except` clause then returns
`None`).  The returned `Nat` counts download attempts. -/
def BistIndexProvider.download_components (p : BistIndexProvider)
    (net : Option (List RawRow)) :
    Option (List ComponentRow) × BistIndexProvider × Nat :=
  match p.df_cache with
  | some df => (some df, p, 0)
  | none =>
      match p.mem_cache with
      | some cached => (some cached, { p with df_cache := some cached }, 0)
      | none =>
          match net with
          | some raw =>
              let df := parse_components raw
              (some df, ⟨some df, some df⟩, 1)
          | none => (none, p, 1)

/-- `get_components`: upper-case the symbol, download (or reuse) the dataset,
return the `(symbol, name)` records whose `index_code` matches; empty list if
the index is unknown or the fetch failed. -/
def BistIndexProvider.get_components (p : BistIndexProvider)
    (net : Option (List RawRow)) (symbol : String) :
    List (String × String) × BistIndexProvider × Nat :=
  let symbolU := pyUpper symbol
  match p.download_components net with
  | (none, p', n) => ([], p', n)
  | (some df, p', n) =>
      (((df.filter fun r => decide (r.index_code = symbolU)).map
          fun r => (r.symbol, r.name)), p', n)

/-- Stable insertion into a list sorted by the first component; models the
`sorted(..., key=lambda x: x["symbol"])` call. -/
def insertByFst (x : String × String × Nat) :
    List (String × String × Nat) → List (String × String × Nat)
  | [] => [x]
  | y :: ys => if x.1 ≤ y.1 then x :: y :: ys else y :: insertByFst x ys

def sortByFst (l : List (String × String × Nat)) : List (String × String × Nat) :=
  l.foldr insertByFst []

/-- `get_available_indices`: group the dataset by `(index_code, index_name)`,
count each group, sort by symbol. -/
def BistIndexProvider.get_available_indices (p : BistIndexProvider)
    (net : Option (List RawRow)) :
    List (String × String × Nat) × BistIndexProvider × Nat :=
  match p.download_components net with
  | (none, p', n) => ([], p', n)
  | (some df, p', n) =>
      let keys := (df.map fun r => (r.index_code, r.index_name)).dedup
      (sortByFst (keys.map fun k =>
        (k.1, k.2, (df.filter fun r =>
          decide (r.index_code = k.1 ∧ r.index_name = k.2)).length)), p', n)

/-- `is_in_index`: true when some row matches both the ticker and the index. -/
def BistIndexProvider.is_in_index (p : BistIndexProvider)
    (net : Option (List RawRow)) (ticker index_symbol : String) :
    Bool × BistIndexProvider × Nat :=
  let tickerU := pyUpper ticker
  let idxU := pyUpper index_symbol
  match p.download_components net with
  | (none, p', n) => (false, p', n)
  | (some df, p', n) =>
      (df.any fun r => decide (r.symbol = tickerU ∧ r.index_code = idxU), p', n)

/-- Stable insertion into a sorted list of strings; models `sorted(...)`. -/
def insertStr (x : String) : List String → List String
  | [] => [x]
  | y :: ys => if x ≤ y then x :: y :: ys else y :: insertStr x ys

def sortStrings (l : List String) : List String :=
  l.foldr insertStr []

/-- `get_indices_for_ticker`: the sorted distinct index codes of the rows
matching the ticker. -/
def BistIndexProvider.get_indices_for_ticker (p : BistIndexProvider)
    (net : Option (List RawRow)) (ticker : String) :
    List String × BistIndexProvider × Nat :=
  let tickerU := pyUpper ticker
  match p.download_components net with
  | (none, p', n) => ([], p', n)
  | (some df, p', n) =>
      (sortStrings
        (((df.filter fun r => decide (r.symbol = tickerU)).map
            fun r => r.index_code).dedup), p', n)

theorem download_components_cached (p : BistIndexProvider)
    (df : List ComponentRow) (net : Option (List RawRow))
    (h : p.df_cache = some df) : p.download_components net = (some df, p, 0) := by
  simp [BistIndexProvider.download_components, h]

/-- Claim C8: the index-constituents CSV is downloaded at most once per
provider instance.  A fresh instance with a successful download caches the
parsed dataset in `self._df_cache` (download count 1); once `_df_cache` is
populated, every call to `get_components`, `get_available_indices`,
`is_in_index` or `get_indices_for_ticker` performs no download, leaves the
instance unchanged, and answers independently of the network. -/
theorem claim_C8_download_once (p : BistIndexProvider) (df : List ComponentRow)
    (net net' : Option (List RawRow)) (raw : List RawRow)
    (sym tick idx : String) (h : p.df_cache = some df) :
    ((BistIndexProvider.mk none none).download_components (some raw)).1 =
      some (parse_components raw) ∧
    ((BistIndexProvider.mk none none).download_components (some raw)).2.1.df_cache =
      some (parse_components raw) ∧
    ((BistIndexProvider.mk none none).download_components (some raw)).2.2 = 1 ∧
    (p.get_components net sym).2.2 = 0 ∧ (p.get_components net sym).2.1 = p ∧
    (p.get_available_indices net).2.2 = 0 ∧ (p.get_available_indices net).2.1 = p ∧
    (p.is_in_index net tick idx).2.2 = 0 ∧ (p.is_in_index net tick idx).2.1 = p ∧
    (p.get_indices_for_ticker net tick).2.2 = 0 ∧
    (p.get_indices_for_ticker net tick).2.1 = p ∧
    (p.get_components net sym).1 = (p.get_components net' sym).1 ∧
    (p.is_in_index net tick idx).1 = (p.is_in_index net' tick idx).1 ∧
    (p.get_available_indices net).1 = (p.get_available_indices net').1 ∧
    (p.get_indices_for_ticker net tick).1 = (p.get_indices_for_ticker net' tick).1 := by
  have hc : ∀ m, p.download_components m = (some df, p, 0) :=
    fun m => download_components_cached p df m h
  refine ⟨rfl, rfl, rfl, ?_, ?_, ?_, ?_, ?_, ?_, ?_, ?_, ?_, ?_, ?_, ?_⟩ <;>
    simp [BistIndexProvider.get_components, BistIndexProvider.get_available_indices,
      BistIndexProvider.is_in_index, BistIndexProvider.get_indices_for_ticker, hc]

theorem claim_C8_witness :
    (BistIndexProvider.mk (some [⟨"THYAO", "TURK HAVA YOLLARI", "XU100", "BIST 100"⟩])
        none).df_cache = some [⟨"THYAO", "TURK HAVA YOLLARI", "XU100", "BIST 100"⟩] ∧
    ((BistIndexProvider.mk (some [⟨"THYAO", "TURK HAVA YOLLARI", "XU100", "BIST 100"⟩])
        none).get_components none "XU100").2.2 = 0 ∧
    ((BistIndexProvider.mk (some [⟨"THYAO", "TURK HAVA YOLLARI", "XU100", "BIST 100"⟩])
        none).get_components none "XU100").1 = [("THYAO", "TURK HAVA YOLLARI")] ∧
    ((BistIndexProvider.mk none none).download_components
        (some [⟨"hdr", "hdr", "hdr", "hdr"⟩,
               ⟨"THYAO.E", "TURK HAVA YOLLARI", "XU100", "BIST 100"⟩])).2.2 = 1 := by
  have h := claim_C8_download_once
    (BistIndexProvider.mk (some [⟨"THYAO", "TURK HAVA YOLLARI", "XU100", "BIST 100"⟩]) none)
    [⟨"THYAO", "TURK HAVA YOLLARI", "XU100", "BIST 100"⟩]
    none none
    [⟨"hdr", "hdr", "hdr", "hdr"⟩, ⟨"THYAO.E", "TURK HAVA YOLLARI", "XU100", "BIST 100"⟩]
    "XU100" "THYAO" "XU100" rfl
  exact ⟨rfl, h.2.2.2.1, by decide, h.2.2.1⟩

/-! ### Python parsing primitives

Character-list implementations of the Python string operations the providers
use (`str.strip`, `int(...)`, `float(...)` on the plain decimal fragment,
`str.split`).  Python `int`/`float` also accept exponents, underscores and
non-ASCII digits that never occur in the scraped payloads; where those would
raise `ValueError` differently is outside every claim here. -/

/-- `str.strip()`. -/
def trimChars (cs : List Char) : List Char :=
  ((cs.dropWhile Char.isWhitespace).reverse.dropWhile Char.isWhitespace).reverse

/-- Splits on a separator character, like Python `str.split(sep)`. -/
def splitOnChar (sep : Char) : List Char → List (List Char)
  | [] => [[]]
  | c :: rest =>
      let r := splitOnChar sep rest
      if c = sep then [] :: r
      else
        match r with
        | h :: t => (c :: h) :: t
        | [] => [[c]]

/-- The value of a nonempty all-digit character run. -/
def parseDigits : List Char → Option Nat
  | [] => none
  | cs =>
      cs.foldl
        (fun acc c =>
          acc.bind fun n =>
            if c.isDigit then some (n * 10 + (c.toNat - 48)) else none)
        (some 0)

/-- An unsigned decimal literal, as accepted by Python `float`:
digits, optionally a dot and more digits, at least one digit in total. -/
def parseDecimal (cs : List Char) : Option Rat :=
  let ip := cs.takeWhile Char.isDigit
  let rest := cs.dropWhile Char.isDigit
  match rest with
  | [] => if ip.isEmpty then none else (parseDigits ip).map fun n => (n : Rat)
  | '.' :: fp =>
      if fp.all Char.isDigit ∧ ¬(ip.isEmpty ∧ fp.isEmpty) then
        some ((((parseDigits ip).getD 0 : Nat) : Rat) +
          (((parseDigits fp).getD 0 : Nat) : Rat) / ((10 : Rat) ^ fp.length))
      else none
  | _ => none

/-- `float(s)` on the signed decimal fragment; `none` where `float` raises
`ValueError`. -/
def pyFloatOfString (s : String) : Option Rat :=
  match trimChars s.data with
  | '-' :: rest => (parseDecimal rest).map Neg.neg
  | '+' :: rest => parseDecimal rest
  | cs => parseDecimal cs

/-- `int(s)` on the signed decimal fragment; `none` where `int` raises
`ValueError`. -/
def pyIntOfString (s : String) : Option Int :=
  match trimChars s.data with
  | '-' :: rest => (parseDigits rest).map fun n => -(n : Int)
  | '+' :: rest => (parseDigits rest).map fun n => (n : Int)
  | cs => (parseDigits cs).map fun n => (n : Int)

/-- Keyed lookup in an association-list model of a Python dict. -/
def lookupStr {V : Type} : List (String × V) → String → Option V
  | [], _ => none
  | (k, v) :: rest, key => if k = key then some v else lookupStr rest key

/-! ### `TCMBRatesProvider` (`borsapy/_providers/tcmb_rates.py`) -/

/-- A `datetime` as produced by `_parse_date` (only the calendar date is
set). -/
structure PyDate where
  year : Nat
  month : Nat
  day : Nat
  deriving DecidableEq, Repr

def is_leap_year (y : Nat) : Bool :=
  decide ((y % 4 = 0 ∧ y % 100 ≠ 0) ∨ y % 400 = 0)

def days_in_month (y m : Nat) : Nat :=
  if m = 2 then (if is_leap_year y then 29 else 28)
  else if m = 4 ∨ m = 6 ∨ m = 9 ∨ m = 11 then 30
  else 31

/-- A day or month field: one or two digits, as `strptime` `%d` / `%m`
accept. -/
def parseDayMonthField (cs : List Char) : Option Nat :=
  if cs.length = 1 ∨ cs.length = 2 then parseDigits cs else none

/-- `_parse_date`: strip; empty gives `None`; a 2-character final dot-part
selects `%d.%m.%y` (with the 1969-based century rule of `%y`), otherwise
`%d.%m.%Y` (4-digit year); any `ValueError` from `strptime` (wrong shape,
non-digits, out-of-range fields) yields `None`. -/
def parse_date (text : String) : Option PyDate :=
  let t := trimChars text.data
  if t.isEmpty then none
  else
    match splitOnChar '.' t with
    | [d, m, y] =>
        let mkDate : Nat → Option PyDate := fun year =>
          match parseDayMonthField d, parseDayMonthField m with
          | some day, some mon =>
              if 1 ≤ mon ∧ mon ≤ 12 ∧ 1 ≤ day ∧ day ≤ days_in_month year mon then
                some ⟨year, mon, day⟩
              else none
          | _, _ => none
        if y.length = 2 then
          match parseDigits y with
          | some yy => mkDate (if yy ≤ 68 then 2000 + yy else 1900 + yy)
          | none => none
        else if y.length = 4 then
          match parseDigits y with
          | some yyyy => mkDate yyyy
          | none => none
        else none
    | _ => none

/-- `_parse_turkish_number`: strip; `""` and `"-"` give `None`; else replace
the comma with a dot and apply `float`, `ValueError` giving `None`. -/
def parse_turkish_number (text : String) : Option Rat :=
  let t := trimChars text.data
  if t.isEmpty ∨ t = ['-'] then none
  else pyFloatOfString ⟨t.map fun c => if c = ',' then '.' else c⟩

/-- The three rate pages (`TCMB_URLS` in the source). -/
def TCMB_URLS : List (String × String) :=
  [("policy",
    "https://www.tcmb.gov.tr/wps/wcm/connect/TR/TCMB+TR/Main+Menu/Temel+Faaliyetler/Para+Politikasi/Merkez+Bankasi+Faiz+Oranlari/1+Hafta+Repo"),
   ("overnight",
    "https://www.tcmb.gov.tr/wps/wcm/connect/TR/TCMB+TR/Main+Menu/Temel+Faaliyetler/Para+Politikasi/Merkez+Bankasi+Faiz+Oranlari/faiz-oranlari"),
   ("late_liquidity",
    "https://www.tcmb.gov.tr/wps/wcm/connect/TR/TCMB+TR/Main+Menu/Temel+Faaliyetler/Para+Politikasi/Merkez+Bankasi+Faiz+Oranlari/Gec+Likidite+Penceresi+%28LON%29")]

/-- One parsed rate table row. -/
structure RateRow where
  date : PyDate
  borrowing : Option Rat
  lending : Option Rat
  deriving DecidableEq, Repr

/-- The Python exceptions this provider can surface. -/
inductive PyError where
  | valueError (msg : String)
  | httpError
  deriving DecidableEq, Repr

/-- One row of the loop body in `_fetch_and_parse_table`: skipped when there
are fewer than three cells or the date fails to parse. -/
def parse_rate_row (cols : List String) : Option RateRow :=
  match cols with
  | c0 :: c1 :: c2 :: _ =>
      match parse_date c0 with
      | some d => some ⟨d, parse_turkish_number c1, parse_turkish_number c2⟩
      | none => none
  | _ => none

/-- Result of one `_fetch_and_parse_table` / `get_rate_history` call: the
value or exception, the provider memory cache afterwards, and how many HTTP
requests and cache lookups happened. -/
structure TcmbFetch where
  result : Except PyError (List RateRow)
  mem : List (String × List RateRow)
  httpGets : Nat
  cacheGets : Nat

/-- `_fetch_and_parse_table`.  The `BaseProvider` memory cache (`base.py`,
not under `src/`) is modelled from the spec as a keyed store read via
`_cache_get` and written via `_cache_set`.  `net url` is the upstream parsed
to the point the code inspects it: `Except.error` when `self._get` raises,
`ok none` when the page has no `<table>`, `ok (some rows)` with each row the
list of its `<td>` cell texts (first row the header). -/
def fetch_and_parse_table (mem : List (String × List RateRow))
    (net : String → Except Unit (Option (List (List String)))) (url : String) :
    TcmbFetch :=
  let cache_key := "tcmb_rates:" ++ url
  match lookupStr mem cache_key with
  | some cached => ⟨Except.ok cached, mem, 0, 1⟩
  | none =>
      match net url with
      | Except.error _ => ⟨Except.error PyError.httpError, mem, 1, 1⟩
      | Except.ok none => ⟨Except.ok [], mem, 1, 1⟩
      | Except.ok (some rows) =>
          match rows with
          | [] => ⟨Except.ok [], mem, 1, 1⟩
          | _ :: body =>
              let results := body.filterMap parse_rate_row
              ⟨Except.ok results, (cache_key, results) :: mem, 1, 1⟩

/-- `get_rate_history`: raise `ValueError` for a `rate_type` outside
`TCMB_URLS`, else fetch and parse that page. -/
def get_rate_history (mem : List (String × List RateRow))
    (net : String → Except Unit (Option (List (List String)))) (rate_type : String) :
    TcmbFetch :=
  match lookupStr TCMB_URLS rate_type with
  | none => ⟨Except.error (PyError.valueError ("Invalid rate_type: " ++ rate_type)), mem, 0, 0⟩
  | some url => fetch_and_parse_table mem net url

theorem fetch_table_no_valueError (mem : List (String × List RateRow))
    (net : String → Except Unit (Option (List (List String)))) (url : String)
    (msg : String) :
    (fetch_and_parse_table mem net url).result ≠
      Except.error (PyError.valueError msg) := by
  unfold fetch_and_parse_table
  cases hmem : lookupStr mem ("tcmb_rates:" ++ url) with
  | some cached => simp [hmem]
  | none =>
      cases hnet : net url with
      | error e => simp [hmem]
      | ok payload =>
          cases payload with
          | none => simp [hmem]
          | some rows => cases rows with
            | nil => simp [hmem]
            | cons hd body => simp [hmem]

theorem TCMB_lookup_none_iff (rt : String) :
    lookupStr TCMB_URLS rt = none ↔
      rt ∉ (["policy", "overnight", "late_liquidity"] : List String) := by
  by_cases h1 : ("policy" : String) = rt
  · subst h1
    simp [TCMB_URLS, lookupStr]
  · by_cases h2 : ("overnight" : String) = rt
    · subst h2
      simp [TCMB_URLS, lookupStr]
    · by_cases h3 : ("late_liquidity" : String) = rt
      · subst h3
        simp [TCMB_URLS, lookupStr]
      · simp [TCMB_URLS, lookupStr, h1, h2, h3, Ne.symm h1, Ne.symm h2, Ne.symm h3]

/-- Claim C10: `get_rate_history` raises `ValueError` iff `rate_type` is not
one of `"policy"`, `"overnight"`, `"late_liquidity"`; for an invalid
`rate_type` it does so before any HTTP request or cache access, leaving the
cache untouched; for a valid `rate_type` the dispatch raises no
`ValueError`. -/
theorem claim_C10_rate_type_dispatch (mem : List (String × List RateRow))
    (net : String → Except Unit (Option (List (List String)))) (rt : String) :
    ((∃ msg, (get_rate_history mem net rt).result =
        Except.error (PyError.valueError msg)) ↔
      rt ∉ (["policy", "overnight", "late_liquidity"] : List String)) ∧
    (rt ∉ (["policy", "overnight", "late_liquidity"] : List String) →
      (get_rate_history mem net rt).mem = mem ∧
      (get_rate_history mem net rt).httpGets = 0 ∧
      (get_rate_history mem net rt).cacheGets = 0) := by
  constructor
  · constructor
    · rintro ⟨msg, hmsg⟩
      rw [← TCMB_lookup_none_iff]
      cases hurl : lookupStr TCMB_URLS rt with
      | none => rfl
      | some url =>
          exfalso
          apply fetch_table_no_valueError mem net url msg
          rw [← hmsg]
          simp [get_rate_history, hurl]
    · intro hnot
      have hurl : lookupStr TCMB_URLS rt = none := (TCMB_lookup_none_iff rt).mpr hnot
      exact ⟨"Invalid rate_type: " ++ rt, by simp [get_rate_history, hurl]⟩
  · intro hnot
    have hurl : lookupStr TCMB_URLS rt = none := (TCMB_lookup_none_iff rt).mpr hnot
    refine ⟨?_, ?_, ?_⟩ <;> simp [get_rate_history, hurl]

theorem claim_C10_witness :
    ("bogus" ∉ (["policy", "overnight", "late_liquidity"] : List String)) ∧
    (∃ msg, (get_rate_history [] (fun _ => Except.ok none) "bogus").result =
      Except.error (PyError.valueError msg)) ∧
    (get_rate_history [] (fun _ => Except.ok none) "bogus").mem = [] ∧
    (get_rate_history [] (fun _ => Except.ok none) "bogus").httpGets = 0 ∧
    (get_rate_history [] (fun _ => Except.ok none) "bogus").cacheGets = 0 ∧
    ¬∃ msg, (get_rate_history [] (fun _ => Except.ok none) "policy").result =
      Except.error (PyError.valueError msg) := by
  have hbogus : ("bogus" : String) ∉ (["policy", "overnight", "late_liquidity"] : List String) := by
    decide
  have hb := claim_C10_rate_type_dispatch [] (fun _ => Except.ok none) "bogus"
  have hp := claim_C10_rate_type_dispatch [] (fun _ => Except.ok none) "policy"
  refine ⟨hbogus, hb.1.mpr hbogus, (hb.2 hbogus).1, (hb.2 hbogus).2.1, (hb.2 hbogus).2.2, ?_⟩
  intro hex
  exact absurd (hp.1.mp hex) (by decide)

/-! ### `CanlidovizProvider` (`borsapy/_providers/canlidoviz.py`) -/

/-- The typed exceptions of `borsapy.exceptions` this provider raises. -/
inductive BorsaError where
  | dataNotAvailable (msg : String)
  | apiError (msg : String)
  deriving DecidableEq, Repr

/-- `CURRENCY_IDS`. -/
def CURRENCY_IDS : List (String × Nat) :=
  [("USD", 1), ("EUR", 50), ("GBP", 100), ("CHF", 51), ("CAD", 56), ("AUD", 102),
   ("JPY", 57), ("NZD", 67), ("SGD", 17), ("HKD", 80), ("TWD", 9),
   ("DKK", 54), ("SEK", 60), ("NOK", 99), ("PLN", 110), ("CZK", 69),
   ("HUF", 108), ("RON", 77), ("BGN", 71), ("HRK", 116), ("RSD", 7),
   ("BAM", 82), ("MKD", 21), ("ALL", 112), ("MDL", 10), ("UAH", 8),
   ("BYR", 109), ("ISK", 83), ("AED", 53), ("SAR", 61), ("QAR", 5),
   ("KWD", 104), ("BHD", 64), ("OMR", 2), ("JOD", 92), ("IQD", 106),
   ("IRR", 68), ("LBP", 117), ("SYP", 6), ("EGP", 111), ("LYD", 101),
   ("TND", 885), ("DZD", 88), ("MAD", 89), ("ZAR", 59), ("ILS", 63),
   ("CNY", 107), ("INR", 103), ("PKR", 29), ("LKR", 87), ("IDR", 105),
   ("MYR", 3), ("THB", 39), ("PHP", 4), ("KRW", 113), ("KZT", 85),
   ("AZN", 75), ("GEL", 162), ("MXN", 65), ("BRL", 74), ("ARS", 73),
   ("CLP", 76), ("COP", 114), ("PEN", 13), ("UYU", 25), ("CRC", 79),
   ("RUB", 97), ("DVZSP1", 783)]

/-- `METAL_IDS`. -/
def METAL_IDS : List (String × Nat) :=
  [("gram-altin", 32), ("ceyrek-altin", 11), ("yarim-altin", 47),
   ("tam-altin", 14), ("cumhuriyet-altin", 27), ("ata-altin", 43),
   ("gram-gumus", 20), ("ons-altin", 81), ("gram-platin", 1012)]

/-- `ENERGY_IDS`. -/
def ENERGY_IDS : List (String × Nat) := [("BRENT", 266)]

/-- `COMMODITY_IDS`. -/
def COMMODITY_IDS : List (String × Nat) :=
  [("XAG-USD", 267), ("XPT-USD", 268), ("XPD-USD", 269)]

/-- `BANK_USD_IDS`. -/
def BANK_USD_IDS : List (String × Nat) :=
  [("akbank", 822), ("garanti-bbva", 805), ("is-bankasi", 1020),
   ("ziraat-bankasi", 264), ("halkbank", 1017), ("yapi-kredi", 819),
   ("vakifbank", 1018), ("denizbank", 1019), ("ing-bank", 1023),
   ("hsbc", 1025), ("teb", 1024), ("qnb-finansbank", 788),
   ("merkez-bankasi", 1016), ("kapali-carsi", 1114), ("kuveyt-turk", 1021),
   ("albaraka-turk", 1022), ("sekerbank", 1113), ("enpara", 824)]

/-- `BANK_EUR_IDS`. -/
def BANK_EUR_IDS : List (String × Nat) :=
  [("akbank", 1341), ("garanti-bbva", 807), ("is-bankasi", 1030),
   ("ziraat-bankasi", 894), ("merkez-bankasi", 1026), ("halkbank", 1027),
   ("yapi-kredi", 820), ("vakifbank", 1028), ("denizbank", 1029),
   ("ing-bank", 1033), ("hsbc", 1035), ("teb", 1034),
   ("qnb-finansbank", 789), ("kapali-carsi", 1115), ("kuveyt-turk", 1031),
   ("albaraka-turk", 1032)]

/-- `BANK_GBP_IDS`. -/
def BANK_GBP_IDS : List (String × Nat) :=
  [("akbank", 1342), ("albaraka-turk", 1329), ("denizbank", 1376),
   ("destekbank", 1338), ("fibabanka", 1410), ("garanti-bbva", 809),
   ("hsbc", 1417), ("ing-bank", 1427), ("is-bankasi", 1485),
   ("kapali-carsi", 1116), ("kuveyt-turk", 841), ("merkez-bankasi", 1036),
   ("qnb-finansbank", 791), ("sekerbank", 1289), ("teb", 1288),
   ("vakifbank", 1460), ("yapi-kredi", 1475), ("ziraat-bankasi", 896)]

/-- `BANK_CHF_IDS`. -/
def BANK_CHF_IDS : List (String × Nat) :=
  [("akbank", 1351), ("albaraka-turk", 1330), ("denizbank", 1377),
   ("is-bankasi", 1489), ("kapali-carsi", 1199), ("merkez-bankasi", 1440),
   ("vakifbank", 1461), ("yapi-kredi", 1479), ("ziraat-bankasi", 902)]

/-- `BANK_CAD_IDS`. -/
def BANK_CAD_IDS : List (String × Nat) :=
  [("akbank", 1345), ("is-bankasi", 1490), ("kapali-carsi", 1204),
   ("merkez-bankasi", 1442), ("ziraat-bankasi", 899)]

/-- `BANK_AUD_IDS`. -/
def BANK_AUD_IDS : List (String × Nat) :=
  [("akbank", 1343), ("is-bankasi", 1486), ("kapali-carsi", 1203),
   ("merkez-bankasi", 1437), ("ziraat-bankasi", 897)]

/-- `BANK_JPY_IDS`. -/
def BANK_JPY_IDS : List (String × Nat) :=
  [("garanti-bbva", 814), ("kapali-carsi", 1198), ("merkez-bankasi", 1455),
   ("sekerbank", 1498), ("vakifbank", 1469), ("ziraat-bankasi", 1286)]

/-- `BANK_RUB_IDS`. -/
def BANK_RUB_IDS : List (String × Nat) :=
  [("akbank", 1352), ("albaraka-turk", 1367), ("denizbank", 1384),
   ("ing-bank", 1436), ("kapali-carsi", 1206), ("kuveyt-turk", 831),
   ("merkez-bankasi", 1448), ("qnb-finansbank", 801), ("vakifbank", 1462),
   ("ziraat-bankasi", 901)]

/-- `BANK_SAR_IDS`. -/
def BANK_SAR_IDS : List (String × Nat) :=
  [("akbank", 1350), ("denizbank", 1401), ("hsbc", 1418), ("ing-bank", 1434),
   ("is-bankasi", 1493), ("kapali-carsi", 1205), ("kuveyt-turk", 842),
   ("merkez-bankasi", 1445), ("qnb-finansbank", 802), ("vakifbank", 1463),
   ("yapi-kredi", 1483), ("ziraat-bankasi", 903)]

/-- `BANK_AED_IDS`. -/
def BANK_AED_IDS : List (String × Nat) :=
  [("akbank", 1358), ("denizbank", 1385), ("kapali-carsi", 1208),
   ("merkez-bankasi", 1454)]

/-- `BANK_CNY_IDS`. -/
def BANK_CNY_IDS : List (String × Nat) :=
  [("akbank", 1353), ("kapali-carsi", 1210), ("merkez-bankasi", 1449)]

/-- `BANK_GRAM_ALTIN_IDS`. -/
def BANK_GRAM_ALTIN_IDS : List (String × Nat) :=
  [("kapali-carsi", 1115), ("akbank", 823), ("ziraat-bankasi", 1039),
   ("is-bankasi", 1040), ("vakifbank", 1037), ("halkbank", 1036),
   ("garanti-bankasi", 806), ("yapi-kredi", 821), ("denizbank", 1038),
   ("albaraka", 1112), ("destekbank", 1339), ("enpara", 1041),
   ("fibabanka", 1300), ("hsbc", 1045), ("ing-bank", 1043),
   ("kuveyt-turk", 826), ("qnb-finansbank", 789), ("sekerbank", 1042),
   ("teb", 1044)]

/-- `BANK_GUMUS_IDS`. -/
def BANK_GUMUS_IDS : List (String × Nat) :=
  [("kapali-carsi", 1181), ("akbank", 1359), ("albaraka", 1372),
   ("denizbank", 1378), ("destekbank", 1340), ("fibabanka", 1413),
   ("garanti-bankasi", 1415), ("halkbank", 1416), ("hsbc", 1426),
   ("kuveyt-turk", 827), ("qnb-finansbank", 1456), ("vakifbank", 1474),
   ("ziraat-bankasi", 1283)]

/-- `BANK_PLATIN_IDS`. -/
def BANK_PLATIN_IDS : List (String × Nat) := [("kuveyt-turk", 1013)]

/-- `BANK_SLUG_MAP`. -/
def BANK_SLUG_MAP : List (String × String) :=
  [("akbank", "akbank"), ("albaraka-turk", "albaraka"), ("denizbank", "denizbank"),
   ("destekbank", "destekbank"), ("enpara", "enpara"), ("fibabanka", "fibabanka"),
   ("garanti-bbva", "garanti"), ("halkbank", "halkbank"), ("hsbc", "hsbc"),
   ("ing-bank", "ing"), ("is-bankasi", "isbank"), ("kapali-carsi", "kapalicarsi"),
   ("kuveyt-turk", "kuveytturk"), ("merkez-bankasi", "tcmb"),
   ("qnb-finansbank", "qnb"), ("sekerbank", "sekerbank"), ("teb", "teb"),
   ("vakifbank", "vakifbank"), ("yapi-kredi", "yapikredi"),
   ("ziraat-bankasi", "ziraat")]

/-- `DOVIZCOM_TO_CANLIDOVIZ = {v: k for k, v in BANK_SLUG_MAP.items()}`. -/
def DOVIZCOM_TO_CANLIDOVIZ : List (String × String) :=
  BANK_SLUG_MAP.map fun p => (p.2, p.1)

/-- Python truthiness of the `institution: str | None` argument
(`if institution:` — `None` and `""` are falsy). -/
def truthy : Option String → Bool
  | some s => !s.isEmpty
  | none => false

/-- `_get_item_id`: bank-specific ID when an institution is given (after the
dovizcom-slug conversion), else the main asset ID through the four tables. -/
def get_item_id (asset : String) (institution : Option String) : Option Nat :=
  let asset_upper := pyUpper asset
  if truthy institution then
    let inst := institution.getD ""
    let inst_slug := (lookupStr DOVIZCOM_TO_CANLIDOVIZ inst).getD inst
    if asset_upper = "USD" then lookupStr BANK_USD_IDS inst_slug
    else if asset_upper = "EUR" then lookupStr BANK_EUR_IDS inst_slug
    else if asset_upper = "GBP" then lookupStr BANK_GBP_IDS inst_slug
    else if asset_upper = "CHF" then lookupStr BANK_CHF_IDS inst_slug
    else if asset_upper = "CAD" then lookupStr BANK_CAD_IDS inst_slug
    else if asset_upper = "AUD" then lookupStr BANK_AUD_IDS inst_slug
    else if asset_upper = "JPY" then lookupStr BANK_JPY_IDS inst_slug
    else if asset_upper = "RUB" then lookupStr BANK_RUB_IDS inst_slug
    else if asset_upper = "SAR" then lookupStr BANK_SAR_IDS inst_slug
    else if asset_upper = "AED" then lookupStr BANK_AED_IDS inst_slug
    else if asset_upper = "CNY" then lookupStr BANK_CNY_IDS inst_slug
    else if asset = "gram-altin" then lookupStr BANK_GRAM_ALTIN_IDS inst_slug
    else if asset = "gumus" then lookupStr BANK_GUMUS_IDS inst_slug
    else if asset = "gram-platin" then lookupStr BANK_PLATIN_IDS inst_slug
    else none
  else
    match lookupStr CURRENCY_IDS asset_upper with
    | some i => some i
    | none =>
        match lookupStr METAL_IDS asset with
        | some i => some i
        | none =>
            match lookupStr ENERGY_IDS asset_upper with
            | some i => some i
            | none => lookupStr COMMODITY_IDS asset_upper

/-- One row of the history DataFrame (`Date` index modelled by the epoch
timestamp the code fed to `datetime.fromtimestamp`; OHLC floats as
rationals). -/
structure OhlcRow where
  date : Int
  openP : Rat
  highP : Rat
  lowP : Rat
  closeP : Rat
  deriving DecidableEq, Repr

/-- Stable insertion into a list sorted by date; models `df.sort_index()`. -/
def insertOhlc (x : OhlcRow) : List OhlcRow → List OhlcRow
  | [] => [x]
  | y :: ys => if x.date ≤ y.date then x :: y :: ys else y :: insertOhlc x ys

def sortOhlc (l : List OhlcRow) : List OhlcRow := l.foldr insertOhlc []

/-- One iteration of the response-parsing loop in `get_history`: the record
is skipped when `int(ts_str)` or a `float(...)` raises `ValueError`, or fewer
than four `|`-separated values are present. -/
def parse_ohlc_record (ts_str ohlc_str : String) : Option OhlcRow :=
  match pyIntOfString ts_str with
  | none => none
  | some ts =>
      match (splitOnChar '|' ohlc_str.data).map (fun cs => (⟨cs⟩ : String)) with
      | v0 :: v1 :: v2 :: v3 :: _ =>
          match pyFloatOfString v0, pyFloatOfString v1,
              pyFloatOfString v2, pyFloatOfString v3 with
          | some o, some hi, some lo, some cl => some ⟨ts, o, hi, lo, cl⟩
          | _, _, _, _ => none
      | _ => none

/-- `days` lookup with default 30 (`.get(period, 30)`). -/
def periodDays (period : String) : Nat :=
  (lookupStr
    [("1d", 1), ("5d", 5), ("1mo", 30), ("3mo", 90), ("6mo", 180),
     ("1y", 365), ("2y", 730), ("5y", 1825), ("max", 3650)] period).getD 30

/-- How an f-string renders the `institution` argument (`None` for absent). -/
def pyOptStr : Option String → String
  | some s => s
  | none => "None"

/-- How the cache key renders `start_dt.date()` / `end_dt.date()`: by the
calendar day, modelled as the floor day number of the epoch timestamp
(injective per day, which is all the key needs). -/
def dateStr (t : Int) : String := toString (Int.fdiv t 86400)

/-- Result of one `CanlidovizProvider.get_history` call. -/
structure HistoryCall where
  result : Except BorsaError (List OhlcRow)
  mem : List (String × List OhlcRow)
  httpCalls : Nat

/-- `get_history`: raise `DataNotAvailableError` when no item id exists;
otherwise compute the date range and cache key, serve the memory cache on a
hit, else perform the HTTP request — any exception in the `try` block
(transport error, `raise_for_status`, unparseable JSON) is re-raised as
`APIError` — parse the records, sort by date, cache and return.  `net` is
`Except.error` when the request/JSON step raises, else the decoded
timestamp-to-string mapping. -/
def get_history (mem : List (String × List OhlcRow))
    (net : Except Unit (List (String × String))) (asset : String)
    (period : String) (start stop : Option Int) (institution : Option String)
    (now : Int) : HistoryCall :=
  match get_item_id asset institution with
  | none =>
      if truthy institution then
        ⟨Except.error (BorsaError.dataNotAvailable
          ("No canlidoviz data for " ++ asset ++ " from " ++ pyOptStr institution)),
         mem, 0⟩
      else
        ⟨Except.error (BorsaError.dataNotAvailable ("Unsupported asset: " ++ asset)),
         mem, 0⟩
  | some _ =>
      let end_dt := stop.getD now
      let start_dt := start.getD (end_dt - (periodDays period : Int) * 86400)
      let cache_key := "canlidoviz:history:" ++ asset ++ ":" ++ pyOptStr institution
        ++ ":" ++ dateStr start_dt ++ ":" ++ dateStr end_dt
      match lookupStr mem cache_key with
      | some cached => ⟨Except.ok cached, mem, 0⟩
      | none =>
          match net with
          | Except.error _ =>
              ⟨Except.error (BorsaError.apiError
                ("Failed to fetch canlidoviz history for " ++ asset)), mem, 1⟩
          | Except.ok data =>
              let df := sortOhlc (data.filterMap fun p => parse_ohlc_record p.1 p.2)
              ⟨Except.ok df, (cache_key, df) :: mem, 1⟩

/-! ### Claim C6: unavailability signalling -/

/-- Counterexample to Claim C6: for `BistIndexProvider.get_components` the
failed-fetch outcome is NOT distinguishable from a successful fetch that
found data but whose result set is empty: a failed download (left call) and a
successful download whose dataset has no row for the requested index (right
call) both return `[]`, and the two returned values are equal. -/
theorem claim_C6_counterexample :
    ((BistIndexProvider.mk none none).get_components none "XU100").1 = [] ∧
    ((BistIndexProvider.mk none none).get_components
        (some [⟨"hdr", "hdr", "hdr", "hdr"⟩,
               ⟨"AKBNK.E", "AKBANK", "XU030", "BIST 30"⟩]) "XU100").1 = [] ∧
    ((BistIndexProvider.mk none none).get_components none "XU100").1 =
      ((BistIndexProvider.mk none none).get_components
        (some [⟨"hdr", "hdr", "hdr", "hdr"⟩,
               ⟨"AKBNK.E", "AKBANK", "XU030", "BIST 30"⟩]) "XU100").1 := by
  refine ⟨rfl, by decide, by decide⟩

/-- Claim C6 as amended: unavailability is signalled explicitly, but not
uniformly and not always distinguishably.  `BistIndexProvider.get_components`
returns (does not raise) an empty list both when the download fails and when
the requested index has no match — a value equal to a successful-but-empty
result, so the caller cannot distinguish the cases.
`CanlidovizProvider.get_history` raises (does not return) typed errors:
`DataNotAvailableError` when the asset or institution has no item id, and
`APIError` when the upstream request fails — outcomes that are
distinguishable from a successful empty history. -/
theorem claim_C6_amended_unavailability :
    (∀ sym : String,
      ((BistIndexProvider.mk none none).get_components none sym).1 = [] ∧
      ((BistIndexProvider.mk none none).get_components none sym).2.1 =
        BistIndexProvider.mk none none) ∧
    (∀ (p : BistIndexProvider) (df : List ComponentRow)
        (net : Option (List RawRow)) (sym : String),
      p.df_cache = some df → (∀ r ∈ df, r.index_code ≠ pyUpper sym) →
      (p.get_components net sym).1 = []) ∧
    (∀ (mem : List (String × List OhlcRow))
        (net : Except Unit (List (String × String)))
        (asset period : String) (start stop : Option Int) (now : Int),
      get_item_id asset none = none →
      get_history mem net asset period start stop none now =
        ⟨Except.error (BorsaError.dataNotAvailable ("Unsupported asset: " ++ asset)),
         mem, 0⟩) ∧
    (∀ (mem : List (String × List OhlcRow))
        (net : Except Unit (List (String × String)))
        (asset period inst : String) (start stop : Option Int) (now : Int),
      truthy (some inst) = true → get_item_id asset (some inst) = none →
      get_history mem net asset period start stop (some inst) now =
        ⟨Except.error (BorsaError.dataNotAvailable
          ("No canlidoviz data for " ++ asset ++ " from " ++ inst)), mem, 0⟩) ∧
    (∀ (asset period : String) (start stop : Option Int)
        (inst : Option String) (now : Int) (i : Nat),
      get_item_id asset inst = some i →
      (get_history [] (Except.error ()) asset period start stop inst now).result =
        Except.error (BorsaError.apiError
          ("Failed to fetch canlidoviz history for " ++ asset)) ∧
      (get_history [] (Except.error ()) asset period start stop inst now).mem = []) := by
  refine ⟨?_, ?_, ?_, ?_, ?_⟩
  · intro sym
    exact ⟨rfl, rfl⟩
  · intro p df net sym hdf hmatch
    have hdl : p.download_components net = (some df, p, 0) :=
      download_components_cached p df net hdf
    have hfil : (df.filter fun r => decide (r.index_code = pyUpper sym)) = [] := by
      rw [List.filter_eq_nil_iff]
      intro r hr
      simpa using hmatch r hr
    simp [BistIndexProvider.get_components, hdl, hfil]
  · intro mem net asset period start stop now hid
    simp [get_history, hid, truthy, pyOptStr]
  · intro mem net asset period inst start stop now ht hid
    simp [get_history, hid, ht, pyOptStr]
  · intro asset period start stop inst now i hid
    constructor <;> simp [get_history, hid, lookupStr]

theorem claim_C6_witness :
    ((BistIndexProvider.mk (some [⟨"AKBNK", "AKBANK", "XU030", "BIST 30"⟩]) none).df_cache =
        some [⟨"AKBNK", "AKBANK", "XU030", "BIST 30"⟩] ∧
      (∀ r ∈ [(⟨"AKBNK", "AKBANK", "XU030", "BIST 30"⟩ : ComponentRow)],
        r.index_code ≠ pyUpper "XU100") ∧
      get_item_id "FOO" none = none ∧
      truthy (some "akbank") = true ∧
      get_item_id "FOO" (some "akbank") = none ∧
      get_item_id "USD" none = some 1) ∧
    ((BistIndexProvider.mk (some [⟨"AKBNK", "AKBANK", "XU030", "BIST 30"⟩]) none).get_components
        none "XU100").1 = [] ∧
    get_history [] (Except.ok []) "FOO" "1mo" none none none 0 =
      ⟨Except.error (BorsaError.dataNotAvailable "Unsupported asset: FOO"), [], 0⟩ ∧
    get_history [] (Except.ok []) "FOO" "1mo" none none (some "akbank") 0 =
      ⟨Except.error (BorsaError.dataNotAvailable
        "No canlidoviz data for FOO from akbank"), [], 0⟩ ∧
    (get_history [] (Except.error ()) "USD" "1mo" none none none 0).result =
      Except.error (BorsaError.apiError "Failed to fetch canlidoviz history for USD") := by
  have hfoo : get_item_id "FOO" none = none := by decide
  have hfooi : get_item_id "FOO" (some "akbank") = none := by decide
  have husd : get_item_id "USD" none = some 1 := by decide
  have hmatch : ∀ r ∈ [(⟨"AKBNK", "AKBANK", "XU030", "BIST 30"⟩ : ComponentRow)],
      r.index_code ≠ pyUpper "XU100" := by decide
  refine ⟨⟨rfl, hmatch, hfoo, rfl, hfooi, husd⟩, ?_, ?_, ?_, ?_⟩
  · exact claim_C6_amended_unavailability.2.1
      (BistIndexProvider.mk (some [⟨"AKBNK", "AKBANK", "XU030", "BIST 30"⟩]) none)
      [⟨"AKBNK", "AKBANK", "XU030", "BIST 30"⟩] none "XU100" rfl hmatch
  · exact claim_C6_amended_unavailability.2.2.1 [] (Except.ok []) "FOO" "1mo"
      none none 0 hfoo
  · exact claim_C6_amended_unavailability.2.2.2.1 [] (Except.ok []) "FOO" "1mo"
      "akbank" none none 0 rfl hfooi
  · exact (claim_C6_amended_unavailability.2.2.2.2 "USD" "1mo" none none none 0 1
      husd).1

end BorsaApi
